import Mathlib

/-!
Shallow embedding of collectionmaker.py (jellyfin_collection).

The program scans a movie library for NFO sidecar files, groups movies by
their collection set name, optionally resolves collection names to TMDb ids
through a bulk export, fetches collection metadata and artwork from TMDb,
and writes one collection XML per group plus backdrop and poster images.

Modelling conventions:
- paths are strings; os.path.join a b is modelled as a ++ "/" ++ b;
- the filesystem state relevant to output (os.path.exists checks and file
  writes) is a list of path strings that grows as files are written;
- the read-only library side (video file probing) is a fixed boolean
  predicate on paths, separate from the output file list, since the program
  only writes under the output directory;
- os.path.relpath (. , library_dir) is an abstract string function relp;
- network responses (the bulk id export, the TMDb collection endpoint, the
  TMDb images endpoint, image downloads) are oracle parameters describing
  the observable shape of each response;
- Python exceptions are Except values in PyError; an uncaught exception
  aborts the run, keeping the writes already performed;
- outbound network calls (each requests.get) are counted in a Nat field.
-/

/-- Python exception kinds observable in this program. -/
inductive PyError where
  | parseError
  | typeError
  | keyError
  | badGzip
  | indexError
  deriving DecidableEq, Repr

/-- Model of os.path.join for a relative second component. -/
def pjoin (a b : String) : String := a ++ "/" ++ b

/-- Boolean membership of a path in the modelled output filesystem,
standing for os.path.exists. -/
def fsHas : List String → String → Bool
  | [], _ => false
  | p :: rest, q => p == q || fsHas rest q

/-- Python truthiness of an optional string (None and the empty string are
falsy). -/
def optTruthy : Option String → Bool
  | none => false
  | some s => !(s == "")

/-- Python truthiness of an optional natural number (None and 0 are falsy). -/
def natTruthy : Option Nat → Bool
  | none => false
  | some n => !(n == 0)

/-- The collection name cleanup applied by process_movie_nfo_files, the
replace of the slash by " - " to keep the name a valid path segment. The
source uses str.replace with the one-character pattern "/"; it is modelled
character by character so that it is structurally recursive and evaluates
in the kernel. -/
def replaceSlash (s : String) : String :=
  ⟨s.data.foldr (fun c acc => if c = '/' then ' ' :: '-' :: ' ' :: acc else c :: acc) []⟩

/-- Supported video extensions, in the order the source lists them. -/
def VIDEO_EXTENSIONS : List String :=
  [".mp4", ".mkv", ".avi", ".mov", ".flv", ".wmv", ".webm", ".m4v"]

/-- The recognized child elements of a well-formed NFO document, as read by
parse_movie_nfo via findtext and findall. The plot element is part of the
document model even though the source never reads it. -/
structure NfoDoc where
  title : Option String
  tmdbid : Option String
  set_name : Option String
  set_overview : Option String
  plot : Option String
  original_filename : Option String
  genres : List String
  studios : List String
  deriving DecidableEq, Repr

/-- An NFO file on disk: either not well-formed markup (ET.parse raises
ParseError) or a parsed document. -/
inductive NfoFile where
  | malformed
  | wellFormed (doc : NfoDoc)
  deriving DecidableEq, Repr

/-- Whether an NFO file is not well-formed. -/
def isMalformed : NfoFile → Bool
  | .malformed => true
  | .wellFormed _ => false

/-- The dict returned by parse_movie_nfo. -/
structure MovieData where
  LocalTitle : String
  TmdbId : String
  CollectionName : Option String
  Overview : String
  OriginalFile : Option String
  Genres : List String
  Studios : List String
  deriving DecidableEq, Repr

/-- parse_movie_nfo: extracts fields from the NFO, raising ParseError on a
document that is not well-formed. Overview reads set/overview only, with the
default used when it is absent. -/
def parse_movie_nfo : NfoFile → Except PyError MovieData
  | .malformed => .error .parseError
  | .wellFormed d =>
      .ok { LocalTitle := d.title.getD "Unknown Title"
          , TmdbId := d.tmdbid.getD "Unknown"
          , CollectionName := d.set_name
          , Overview := d.set_overview.getD "No overview available."
          , OriginalFile := d.original_filename
          , Genres := d.genres
          , Studios := d.studios }

/-- find_video_file_for_nfo: probe the NFO directory for base name plus each
extension in order, returning the first existing path. -/
def find_video_file_for_nfo (libExists : String → Bool) (nfo_dir nfo_base : String) :
    Option String :=
  VIDEO_EXTENSIONS.findSome? fun ext =>
    let p := pjoin nfo_dir (nfo_base ++ ext)
    if libExists p then some p else none

/-- One discovered .nfo file: its directory, its base name without the .nfo
extension, and its content. -/
structure SidecarFile where
  dir : String
  base : String
  content : NfoFile
  deriving Repr

/-- One entry of the Movies list kept per collection: only these three keys
are stored by process_movie_nfo_files. -/
structure MovieEntry where
  LocalTitle : String
  TmdbId : String
  FullRelativePath : Option String
  deriving DecidableEq, Repr

/-- The per-collection dict built during grouping. -/
structure CollData where
  Movies : List MovieEntry
  CollectionId : Option Nat
  deriving DecidableEq, Repr

/-- First-match lookup in the collection id mapping, standing for dict.get
with default None. -/
def lookupId (ids : List (String × Nat)) (n : String) : Option Nat :=
  (ids.find? (fun p => p.1 == n)).map (fun p => p.2)

/-- Python dict assignment d[k] = v on an insertion-ordered association
list: overwrite in place when the key exists, append otherwise. -/
def dictInsert (d : List (String × Nat)) (k : String) (v : Nat) : List (String × Nat) :=
  if d.any (fun p => p.1 == k) then
    d.map (fun p => if p.1 == k then (k, v) else p)
  else d ++ [(k, v)]

/-- Adding one movie to the collections dict: append to the existing group,
or create a new group whose CollectionId is looked up once at creation. -/
def addMovieToCollections (colls : List (String × CollData)) (ids : List (String × Nat))
    (name : String) (m : MovieEntry) : List (String × CollData) :=
  if colls.any (fun e => e.1 == name) then
    colls.map (fun e =>
      if e.1 == name then (e.1, { e.2 with Movies := e.2.Movies ++ [m] }) else e)
  else colls ++ [(name, { Movies := [m], CollectionId := lookupId ids name })]

/-- The grouping loop of process_movie_nfo_files over the discovered .nfo
files, in walk order. parse_movie_nfo is called with no exception handler,
so a ParseError aborts the whole traversal. Movies whose set name is absent
or empty are skipped; a movie with no matching video file is still appended,
with FullRelativePath = none. -/
def process_grouping (libExists : String → Bool) (relp : String → String)
    (ids : List (String × Nat)) :
    List SidecarFile → List (String × CollData) → Except PyError (List (String × CollData))
  | [], acc => .ok acc
  | s :: rest, acc =>
    match parse_movie_nfo s.content with
    | .error e => .error e
    | .ok md =>
      match md.CollectionName with
      | none => process_grouping libExists relp ids rest acc
      | some n =>
        if n = "" then process_grouping libExists relp ids rest acc
        else
          let collection_name := replaceSlash n
          let video_file := find_video_file_for_nfo libExists s.dir s.base
          let m : MovieEntry :=
            { LocalTitle := md.LocalTitle
            , TmdbId := md.TmdbId
            , FullRelativePath := video_file.map relp }
          process_grouping libExists relp ids rest
            (addMovieToCollections acc ids collection_name m)

/-- The dict returned by fetch_collection_data_from_tmdb. -/
structure TmdbData where
  Overview : String
  Genres : List String
  Studios : List String
  deriving DecidableEq, Repr

/-- Observable shape of the TMDb collection endpoint interaction:
a RequestException, a falsy JSON body, or a JSON object with an optional
overview and genre and production company name lists. -/
inductive TmdbOutcome where
  | reqError
  | emptyBody
  | ok (overview : Option String) (genres studios : List String)
  deriving DecidableEq, Repr

/-- fetch_collection_data_from_tmdb. With a falsy api key the source builds
a dict from movie_data, but the call site passes a Movies entry, which has
no Overview key, so that branch raises KeyError. With a truthy key one
request is issued; a RequestException or a falsy body yields the default
data. The second component counts outbound requests. -/
def fetch_collection_data_from_tmdb (_tmdb_id : Nat) (_movie_data : MovieEntry)
    (api_key : Option String) (resp : TmdbOutcome) : Except PyError TmdbData × Nat :=
  if optTruthy api_key then
    match resp with
    | .reqError => (.ok { Overview := "No overview available.", Genres := [], Studios := [] }, 1)
    | .emptyBody => (.ok { Overview := "No overview available.", Genres := [], Studios := [] }, 1)
    | .ok ov gs ss => (.ok { Overview := ov.getD "No overview available.", Genres := gs, Studios := ss }, 1)
  else
    (.error .keyError, 0)

/-- The emitted collection XML, child elements in source order. -/
structure ItemXml where
  ContentRating : String
  LockData : String
  Overview : String
  LocalTitle : String
  DisplayOrder : String
  Genres : List String
  Studios : List String
  CollectionItems : List String
  CollectionID : Option Nat
  deriving DecidableEq, Repr

/-- The Path loop of create_collection_xml: os.path.join of the library
directory with each FullRelativePath, raising TypeError on a None path. -/
def joinPaths (library_dir : String) : List MovieEntry → Except PyError (List String)
  | [] => .ok []
  | m :: rest =>
    match m.FullRelativePath with
    | none => .error .typeError
    | some p => (joinPaths library_dir rest).map (fun ps => pjoin library_dir p :: ps)

/-- The data create_collection_xml reads from collection_data. -/
structure CollectionPayload where
  Overview : String
  Genres : List String
  Studios : List String
  Movies : List MovieEntry
  deriving DecidableEq, Repr

/-- create_collection_xml: the XML tree (including all Path joins) is built
before the exists check, so a TypeError from a None path is raised even when
the write would be skipped. Returns none when the write is skipped because
the output file exists and overwrite is false. -/
def create_collection_xml (collection_name : String) (cd : CollectionPayload)
    (output_file library_dir : String) (collection_id : Option Nat)
    (overwrite : Bool) (fs : List String) : Except PyError (Option ItemXml) :=
  match joinPaths library_dir cd.Movies with
  | .error e => .error e
  | .ok paths =>
    let item : ItemXml :=
      { ContentRating := "NR"
      , LockData := "false"
      , Overview := cd.Overview
      , LocalTitle := collection_name
      , DisplayOrder := "PremiereDate"
      , Genres := cd.Genres
      , Studios := cd.Studios
      , CollectionItems := paths
      , CollectionID := if natTruthy collection_id then collection_id else none }
    if fsHas fs output_file && !overwrite then .ok none else .ok (some item)

/-- A file write performed by the run: a collection XML, or a binary image
downloaded from a URL. -/
inductive WriteEvent where
  | artifact (path : String) (item : ItemXml)
  | image (path url : String)
  deriving DecidableEq, Repr

/-- The destination path of a write. -/
def writePath : WriteEvent → String
  | .artifact p _ => p
  | .image p _ => p

/-- One line of the decompressed bulk export: either text that is not valid
JSON (json.loads raises JSONDecodeError), or a decoded value whose name and
id lookups each succeed only when the field is present. -/
inductive JsonLine where
  | badJson (raw : String)
  | entry (name : Option String) (id : Option Nat)
  deriving DecidableEq, Repr

/-- Whether a line decodes as JSON at all. -/
def isGoodJson : JsonLine → Bool
  | .badJson _ => false
  | .entry _ _ => true

/-- Observable shape of the bulk export download: a RequestException from
the get or raise_for_status, or a payload that either fails gzip
decompression (or UTF-8 decoding) or yields a list of lines. -/
inductive GzipPayload where
  | badGzip
  | lines (ls : List JsonLine)
  deriving DecidableEq, Repr

inductive ResolverInput where
  | netError
  | ok (gz : GzipPayload)
  deriving DecidableEq, Repr

/-- The per-line loop of download_and_extract_collection_ids: only
JSONDecodeError is caught, so a decoded line missing the name or id key
raises KeyError out of the function. -/
def buildIds : List JsonLine → List (String × Nat) → Except PyError (List (String × Nat))
  | [], acc => .ok acc
  | l :: rest, acc =>
    match l with
    | .badJson _ => buildIds rest acc
    | .entry (some n) (some i) => buildIds rest (dictInsert acc n i)
    | .entry _ _ => .error .keyError

/-- download_and_extract_collection_ids: the outer handler catches only
RequestException and JSONDecodeError, so a failed gzip decompression
propagates. A caught failure returns the empty mapping. -/
def download_and_extract_collection_ids (inp : ResolverInput) :
    Except PyError (List (String × Nat)) :=
  match inp with
  | .netError => .ok []
  | .ok .badGzip => .error .badGzip
  | .ok (.lines ls) => buildIds ls []

/-- One entry of the backdrops or posters list of the TMDb images
endpoint. -/
structure ImageEntry where
  iso_639_1 : Option String
  file_path : String
  deriving DecidableEq, Repr

/-- Observable shape of the images endpoint interaction plus the success of
the two possible image downloads. -/
inductive ImagesOutcome where
  | failure
  | ok (backdrops posters : List ImageEntry) (backdropDl posterDl : Bool)
  deriving DecidableEq, Repr

/-- The selection made by fetch_collection_images for one image kind: the
first entry tagged English, else the first entry overall. -/
def pickImage (entries : List ImageEntry) : Option ImageEntry :=
  match entries.filter (fun e => e.iso_639_1 == some "en") with
  | e :: _ => some e
  | [] => entries.head?

/-- download_image: one request; on success the file is written with no
exists check, on any exception nothing is written. -/
def download_image (url file_path : String) (success : Bool) : List WriteEvent × Nat :=
  (if success then [.image file_path url] else [], 1)

/-- fetch_collection_images: downloads the selected backdrop to
output_dir/backdrop.jpg and the selected poster to output_dir/poster.jpg.
The second component counts outbound requests. -/
def fetch_collection_images (_collection_id : Nat) (output_dir : String)
    (o : ImagesOutcome) : List WriteEvent × Nat :=
  match o with
  | .failure => ([], 1)
  | .ok backdrops posters bdl pdl =>
    let bw :=
      match pickImage backdrops with
      | some e =>
          download_image ("https://image.tmdb.org/t/p/original" ++ e.file_path)
            (pjoin output_dir "backdrop.jpg") bdl
      | none => ([], 0)
    let pw :=
      match pickImage posters with
      | some e =>
          download_image ("https://image.tmdb.org/t/p/original" ++ e.file_path)
            (pjoin output_dir "poster.jpg") pdl
      | none => ([], 0)
    (bw.1 ++ pw.1, 1 + bw.2 + pw.2)

/-- The output file of a collection: output_dir/<name>.xml, directly under
the output directory. -/
def collXmlPath (output_dir name : String) : String := pjoin output_dir (name ++ ".xml")

/-- The run-constant inputs of the emission loop. -/
structure EmitCtx where
  library_dir : String
  output_dir : String
  api_key : Option String
  overwrite : Bool
  tmdbResp : Nat → TmdbOutcome
  imgResp : Nat → ImagesOutcome

/-- The effect of processing one collection: writes performed, the
exception aborting the run if any, and the number of outbound requests. -/
structure StepOut where
  writes : List WriteEvent
  err : Option PyError
  net : Nat
  deriving Repr

/-- The body of one emission iteration after the exists check: skip unless
the CollectionId is truthy; fetch TMDb data, build and possibly write the
XML, then fetch images when an api key is present. The source call to
create_collection_xml omits the overwrite argument, so its inner check
always runs with overwrite false. -/
def stepEmit (ctx : EmitCtx) (fs : List String) (name : String) (cd : CollData)
    (id : Nat) : StepOut :=
  match cd.Movies with
  | [] => { writes := [], err := some .indexError, net := 0 }
  | m0 :: _ =>
    match fetch_collection_data_from_tmdb id m0 ctx.api_key (ctx.tmdbResp id) with
    | (.error er, n) => { writes := [], err := some er, net := n }
    | (.ok td, n) =>
      match create_collection_xml name
          { Overview := td.Overview, Genres := td.Genres, Studios := td.Studios
          , Movies := cd.Movies }
          (collXmlPath ctx.output_dir name) ctx.library_dir cd.CollectionId false fs with
      | .error er => { writes := [], err := some er, net := n }
      | .ok res =>
        let iw :=
          if optTruthy ctx.api_key then
            fetch_collection_images id ctx.output_dir (ctx.imgResp id)
          else ([], 0)
        match res with
        | none => { writes := iw.1, err := none, net := n + iw.2 }
        | some item =>
          { writes := .artifact (collXmlPath ctx.output_dir name) item :: iw.1
          , err := none, net := n + iw.2 }

/-- One iteration of the emission loop of process_movie_nfo_files: skip the
collection when its XML already exists and overwrite is unset, skip with a
warning when the CollectionId is falsy, otherwise emit. -/
def stepColl (ctx : EmitCtx) (fs : List String) (e : String × CollData) : StepOut :=
  if fsHas fs (collXmlPath ctx.output_dir e.1) && !ctx.overwrite then
    { writes := [], err := none, net := 0 }
  else
    match e.2.CollectionId with
    | none => { writes := [], err := none, net := 0 }
    | some id =>
      if id == 0 then { writes := [], err := none, net := 0 }
      else stepEmit ctx fs e.1 e.2 id

/-- The accumulated result of the emission loop. -/
structure EmitOut where
  fs : List String
  writes : List WriteEvent
  err : Option PyError
  net : Nat
  deriving Repr

/-- The emission loop over the collections dict in insertion order. Each
write adds its path to the filesystem; an exception stops the loop, keeping
the writes already performed. -/
def runEmit (ctx : EmitCtx) (fs : List String) : List (String × CollData) → EmitOut
  | [] => { fs := fs, writes := [], err := none, net := 0 }
  | e :: rest =>
    let o := stepColl ctx fs e
    match o.err with
    | some er =>
      { fs := fs ++ o.writes.map writePath, writes := o.writes, err := some er, net := o.net }
    | none =>
      let r := runEmit ctx (fs ++ o.writes.map writePath) rest
      { fs := r.fs, writes := o.writes ++ r.writes, err := r.err, net := o.net + r.net }

/-- The result of one whole run. -/
structure RunResult where
  fs : List String
  writes : List WriteEvent
  err : Option PyError
  net : Nat
  deriving Repr

/-- process_movie_nfo_files: download the id mapping when an api key is
given (an uncaught resolver exception aborts the run), group the sidecars
(an uncaught ParseError aborts the run), then emit each collection. -/
def process_movie_nfo_files (library_dir output_dir : String) (api_key : Option String)
    (overwrite : Bool) (resolverInput : ResolverInput) (sidecars : List SidecarFile)
    (libExists : String → Bool) (relp : String → String)
    (tmdbResp : Nat → TmdbOutcome) (imgResp : Nat → ImagesOutcome)
    (fs0 : List String) : RunResult :=
  let idsFetch : Except PyError (List (String × Nat)) × Nat :=
    if optTruthy api_key then (download_and_extract_collection_ids resolverInput, 1)
    else (.ok [], 0)
  match idsFetch with
  | (.error e, n0) => { fs := fs0, writes := [], err := some e, net := n0 }
  | (.ok ids, n0) =>
    match process_grouping libExists relp ids sidecars [] with
    | .error e => { fs := fs0, writes := [], err := some e, net := n0 }
    | .ok groups =>
      let ctx : EmitCtx :=
        { library_dir := library_dir, output_dir := output_dir, api_key := api_key
        , overwrite := overwrite, tmdbResp := tmdbResp, imgResp := imgResp }
      let r := runEmit ctx fs0 groups
      { fs := r.fs, writes := r.writes, err := r.err, net := n0 + r.net }

/-- Removing the genre and studio elements from a well-formed sidecar
document, leaving everything else intact. -/
def scrubGenresStudios (s : SidecarFile) : SidecarFile :=
  { s with content :=
      match s.content with
      | .malformed => .malformed
      | .wellFormed d => .wellFormed { d with genres := [], studios := [] } }

/-! ## Helper lemmas -/

theorem buildIds_filter (ls : List JsonLine) (acc : List (String × Nat)) :
    buildIds (ls.filter isGoodJson) acc = buildIds ls acc := by
  induction ls generalizing acc with
  | nil => rfl
  | cons l rest ih =>
    cases l with
    | badJson r => simpa [List.filter, isGoodJson, buildIds] using ih acc
    | entry n i =>
      cases n with
      | none => simp [List.filter, isGoodJson, buildIds]
      | some n =>
        cases i with
        | none => simp [List.filter, isGoodJson, buildIds]
        | some i => simpa [List.filter, isGoodJson, buildIds] using ih (dictInsert acc n i)

theorem fsHas_append (a b : List String) (p : String) :
    fsHas (a ++ b) p = (fsHas a p || fsHas b p) := by
  induction a with
  | nil => simp [fsHas]
  | cons x rest ih => simp [fsHas, ih, Bool.or_assoc]

theorem runEmit_fs_eq (ctx : EmitCtx) (L : List (String × CollData)) :
    ∀ fs, (runEmit ctx fs L).fs = fs ++ (runEmit ctx fs L).writes.map writePath := by
  induction L with
  | nil => intro fs; simp [runEmit]
  | cons e rest ih =>
    intro fs
    rw [runEmit]
    cases h : (stepColl ctx fs e).err with
    | some er => simp [h]
    | none => simp [h, ih, List.map_append, List.append_assoc]

theorem stepColl_of_exists (ctx : EmitCtx) (fs : List String) (e : String × CollData)
    (how : ctx.overwrite = false)
    (h : fsHas fs (collXmlPath ctx.output_dir e.1) = true) :
    stepColl ctx fs e = { writes := [], err := none, net := 0 } := by
  simp [stepColl, h, how]

theorem stepColl_of_noId (ctx : EmitCtx) (fs : List String) (e : String × CollData)
    (h : natTruthy e.2.CollectionId = false) :
    stepColl ctx fs e = { writes := [], err := none, net := 0 } := by
  have hcase : e.2.CollectionId = none ∨ e.2.CollectionId = some 0 := by
    cases hid : e.2.CollectionId with
    | none => exact .inl rfl
    | some n =>
      right
      rw [hid] at h
      simp [natTruthy] at h
      rw [h]
  unfold stepColl
  rcases hcase with h1 | h1 <;> rw [h1] <;> split <;> simp

theorem stepEmit_err_writes (ctx : EmitCtx) (fs : List String) (name : String)
    (cd : CollData) (id : Nat) (er : PyError) :
    (stepEmit ctx fs name cd id).err = some er → (stepEmit ctx fs name cd id).writes = [] := by
  simp only [stepEmit]
  split
  · simp
  · split
    · simp
    · split
      · simp
      · split
        · simp
        · intro h; simp at h

theorem stepColl_err_writes (ctx : EmitCtx) (fs : List String) (e : String × CollData)
    (er : PyError) :
    (stepColl ctx fs e).err = some er → (stepColl ctx fs e).writes = [] := by
  simp only [stepColl]
  split
  · simp
  · split
    · simp
    · split
      · simp
      · exact stepEmit_err_writes ctx fs e.1 e.2 _ er

/-! ## Claims -/

/-- C7 (corrected): a failed gzip decompression of the bulk export is not
caught by the resolver, whose handler lists only RequestException and
JSONDecodeError, so it propagates instead of yielding the empty mapping. -/
theorem C7_counterexample :
    download_and_extract_collection_ids (.ok .badGzip) = .error .badGzip ∧
    download_and_extract_collection_ids (.ok .badGzip) ≠ .ok [] := by
  exact ⟨rfl, fun h => nomatch h⟩

/-- C7 (amended): lines of the bulk export that fail JSON decoding are
skipped exactly as if they were absent, while decodable lines still
populate the mapping, and a network failure yields the empty mapping; a
decompression failure, however, propagates. -/
theorem C7_resolver_best_effort :
    (∀ ls : List JsonLine,
      download_and_extract_collection_ids (.ok (.lines ls)) =
        download_and_extract_collection_ids (.ok (.lines (ls.filter isGoodJson)))) ∧
    download_and_extract_collection_ids .netError = .ok [] := by
  refine ⟨fun ls => ?_, rfl⟩
  show buildIds ls [] = buildIds (ls.filter isGoodJson) []
  exact (buildIds_filter ls []).symm

/-- C9 (corrected): a sidecar with no collection-scoped overview but with a
plot element yields the default overview, not the plot text: the parser
never falls back to plot. -/
theorem C9_counterexample :
    (parse_movie_nfo (.wellFormed ⟨none, none, none, none, some "A plot.", none, [], []⟩)).map
        MovieData.Overview = .ok "No overview available." ∧
    ("No overview available." : String) ≠ "A plot." := by
  exact ⟨rfl, by decide⟩

/-- C9 (amended): the parsed overview is set/overview when present and the
default string otherwise; the plot element is never consulted, so changing
it does not affect the parse at all. -/
theorem C9_overview_rule (d : NfoDoc) (p : Option String) :
    parse_movie_nfo (.wellFormed { d with plot := p }) = parse_movie_nfo (.wellFormed d) ∧
    (parse_movie_nfo (.wellFormed d)).map MovieData.Overview =
      .ok (d.set_overview.getD "No overview available.") := by
  exact ⟨rfl, rfl⟩

theorem create_not_exists_some (collection_name : String) (cd : CollectionPayload)
    (output_file library_dir : String) (cid : Option Nat) (ow : Bool) (fs : List String)
    (res : Option ItemXml)
    (hfs : fsHas fs output_file = false)
    (h : create_collection_xml collection_name cd output_file library_dir cid ow fs = .ok res) :
    ∃ item, res = some item := by
  unfold create_collection_xml at h
  cases hj : joinPaths library_dir cd.Movies with
  | error e => rw [hj] at h; simp at h
  | ok paths =>
    rw [hj] at h
    rw [hfs] at h
    simp at h
    exact ⟨_, h.symm⟩

theorem stepEmit_writes_cover (ctx : EmitCtx) (fs : List String) (name : String)
    (cd : CollData) (id : Nat)
    (hfs : fsHas fs (collXmlPath ctx.output_dir name) = false)
    (herr : (stepEmit ctx fs name cd id).err = none) :
    fsHas ((stepEmit ctx fs name cd id).writes.map writePath)
      (collXmlPath ctx.output_dir name) = true := by
  obtain ⟨movies, cid⟩ := cd
  cases movies with
  | nil => simp [stepEmit] at herr
  | cons m0 ms =>
    cases hf : fetch_collection_data_from_tmdb id m0 ctx.api_key (ctx.tmdbResp id) with
    | mk fres n =>
      cases fres with
      | error er => simp [stepEmit, hf] at herr
      | ok td =>
        cases hc : create_collection_xml name
            { Overview := td.Overview, Genres := td.Genres, Studios := td.Studios
            , Movies := m0 :: ms }
            (collXmlPath ctx.output_dir name) ctx.library_dir cid false fs with
        | error er => simp [stepEmit, hf, hc] at herr
        | ok res =>
          obtain ⟨item, hres⟩ := create_not_exists_some name _ _ _ _ _ _ res hfs hc
          subst hres
          simp [stepEmit, hf, hc, fsHas, writePath]

theorem stepColl_writes_cover (ctx : EmitCtx) (fs : List String) (e : String × CollData)
    (id : Nat) (hid : e.2.CollectionId = some id) (hz : ¬id = 0)
    (hfs : fsHas fs (collXmlPath ctx.output_dir e.1) = false)
    (herr : (stepColl ctx fs e).err = none) :
    fsHas ((stepColl ctx fs e).writes.map writePath) (collXmlPath ctx.output_dir e.1) = true := by
  simp only [stepColl, hfs, Bool.false_and, Bool.false_eq_true, if_false, hid] at herr ⊢
  have hz' : (id == 0) = false := by simpa using hz
  rw [hz'] at herr ⊢
  simp only [Bool.false_eq_true, if_false] at herr ⊢
  exact stepEmit_writes_cover ctx fs e.1 e.2 id hfs herr

theorem stepColl_second_skip (ctx : EmitCtx) (fs g : List String) (e : String × CollData)
    (how : ctx.overwrite = false)
    (herr : (stepColl ctx fs e).err = none)
    (hsub : ∀ p, fsHas (fs ++ (stepColl ctx fs e).writes.map writePath) p = true →
      fsHas g p = true) :
    stepColl ctx g e = { writes := [], err := none, net := 0 } := by
  cases hx : fsHas fs (collXmlPath ctx.output_dir e.1) with
  | true =>
    refine stepColl_of_exists ctx g e how (hsub _ ?_)
    rw [fsHas_append, hx]
    rfl
  | false =>
    cases hid : e.2.CollectionId with
    | none => exact stepColl_of_noId ctx g e (by rw [hid]; rfl)
    | some id =>
      by_cases hz : id = 0
      · exact stepColl_of_noId ctx g e (by rw [hid, hz]; simp [natTruthy])
      · have hcov := stepColl_writes_cover ctx fs e id hid hz hx herr
        refine stepColl_of_exists ctx g e how (hsub _ ?_)
        rw [fsHas_append, hcov]
        simp

theorem runEmit_second_pass (ctx : EmitCtx) (how : ctx.overwrite = false)
    (L : List (String × CollData)) : ∀ fs,
    (runEmit ctx (runEmit ctx fs L).fs L).writes = [] ∧
    (runEmit ctx (runEmit ctx fs L).fs L).fs = (runEmit ctx fs L).fs ∧
    (runEmit ctx (runEmit ctx fs L).fs L).err = (runEmit ctx fs L).err := by
  induction L with
  | nil => intro fs; simp [runEmit]
  | cons e rest ih =>
    intro fs
    cases herr : (stepColl ctx fs e).err with
    | some er =>
      have hw := stepColl_err_writes ctx fs e er herr
      simp only [runEmit, herr, hw, List.map_nil, List.append_nil]
      simp [herr, hw]
    | none =>
      have hsub : ∀ p,
          fsHas (fs ++ (stepColl ctx fs e).writes.map writePath) p = true →
          fsHas ((runEmit ctx (fs ++ (stepColl ctx fs e).writes.map writePath) rest).fs) p
            = true := by
        intro p hp
        rw [runEmit_fs_eq ctx rest, fsHas_append, hp]
        rfl
      have hskip := stepColl_second_skip ctx fs
        ((runEmit ctx (fs ++ (stepColl ctx fs e).writes.map writePath) rest).fs) e
        how herr hsub
      have hih := ih (fs ++ (stepColl ctx fs e).writes.map writePath)
      simp only [runEmit, herr]
      simp only [runEmit, hskip, List.map_nil, List.append_nil]
      exact ⟨hih.1, hih.2.1, hih.2.2⟩

/-- C6 (confirmed): with the overwrite flag unset, running the whole pass a
second time over the filesystem produced by the first run performs no file
writes at all: every collection is skipped at the exists check before any
artifact or image write can happen. -/
theorem C6_idempotent (library_dir output_dir : String) (api_key : Option String)
    (resolverInput : ResolverInput) (sidecars : List SidecarFile)
    (libExists : String → Bool) (relp : String → String)
    (tmdbResp : Nat → TmdbOutcome) (imgResp : Nat → ImagesOutcome) (fs0 : List String) :
    (process_movie_nfo_files library_dir output_dir api_key false resolverInput sidecars
      libExists relp tmdbResp imgResp
      (process_movie_nfo_files library_dir output_dir api_key false resolverInput sidecars
        libExists relp tmdbResp imgResp fs0).fs).writes = [] := by
  unfold process_movie_nfo_files
  cases hk : optTruthy api_key with
  | false =>
    simp only [hk, Bool.false_eq_true, if_false]
    cases hg : process_grouping libExists relp [] sidecars [] with
    | error e => simp
    | ok groups =>
      simp only []
      exact (runEmit_second_pass
        { library_dir := library_dir, output_dir := output_dir, api_key := api_key
        , overwrite := false, tmdbResp := tmdbResp, imgResp := imgResp } rfl groups fs0).1
  | true =>
    simp only [hk, if_true]
    cases hr : download_and_extract_collection_ids resolverInput with
    | error e => simp
    | ok ids =>
      simp only []
      cases hg : process_grouping libExists relp ids sidecars [] with
      | error e => simp
      | ok groups =>
        simp only []
        exact (runEmit_second_pass
          { library_dir := library_dir, output_dir := output_dir, api_key := api_key
          , overwrite := false, tmdbResp := tmdbResp, imgResp := imgResp } rfl groups fs0).1

theorem process_grouping_malformed (libExists : String → Bool) (relp : String → String)
    (ids : List (String × Nat)) (sidecars : List SidecarFile)
    (h : (sidecars.any fun s => isMalformed s.content) = true) :
    ∀ acc, process_grouping libExists relp ids sidecars acc = .error .parseError := by
  induction sidecars with
  | nil => simp at h
  | cons s rest ih =>
    intro acc
    cases hs : s.content with
    | malformed => simp [process_grouping, parse_movie_nfo, hs]
    | wellFormed d =>
      have hrest : (rest.any fun s => isMalformed s.content) = true := by
        simp only [List.any_cons, hs, isMalformed] at h
        simpa using h
      cases hn : d.set_name with
      | none => simp [process_grouping, parse_movie_nfo, hs, hn, ih hrest]
      | some nm =>
        by_cases he : nm = "" <;>
          simp [process_grouping, parse_movie_nfo, hs, hn, he, ih hrest]

theorem addMovie_none_ids (acc : List (String × CollData)) (name : String) (m : MovieEntry)
    (hacc : ∀ e ∈ acc, e.2.CollectionId = none) :
    ∀ e ∈ addMovieToCollections acc [] name m, e.2.CollectionId = none := by
  intro e he
  unfold addMovieToCollections at he
  by_cases hany : acc.any (fun e => e.1 == name) = true
  · rw [if_pos hany] at he
    obtain ⟨a, ha, hae⟩ := List.mem_map.mp he
    by_cases h1 : (a.1 == name) = true
    · rw [if_pos h1] at hae
      rw [← hae]
      exact hacc a ha
    · rw [if_neg h1] at hae
      rw [← hae]
      exact hacc a ha
  · rw [if_neg hany] at he
    rcases List.mem_append.mp he with h1 | h1
    · exact hacc e h1
    · simp only [List.mem_singleton] at h1
      rw [h1]
      rfl

theorem grouping_ids_nil_none (libExists : String → Bool) (relp : String → String)
    (sidecars : List SidecarFile) :
    ∀ acc groups, (∀ e ∈ acc, e.2.CollectionId = none) →
    process_grouping libExists relp [] sidecars acc = .ok groups →
    ∀ e ∈ groups, e.2.CollectionId = none := by
  induction sidecars with
  | nil =>
    intro acc groups hacc hok
    simp only [process_grouping, Except.ok.injEq] at hok
    rw [← hok]
    exact hacc
  | cons s rest ih =>
    intro acc groups hacc hok
    cases hs : s.content with
    | malformed => simp [process_grouping, parse_movie_nfo, hs] at hok
    | wellFormed d =>
      cases hn : d.set_name with
      | none =>
        simp only [process_grouping, parse_movie_nfo, hs, hn] at hok
        exact ih acc groups hacc hok
      | some nm =>
        by_cases he : nm = ""
        · simp only [process_grouping, parse_movie_nfo, hs, hn, he, if_true] at hok
          exact ih acc groups hacc hok
        · simp only [process_grouping, parse_movie_nfo, hs, hn, he, if_false] at hok
          exact ih _ groups (addMovie_none_ids acc _ _ hacc) hok

theorem runEmit_all_none (ctx : EmitCtx) (L : List (String × CollData))
    (hL : ∀ e ∈ L, natTruthy e.2.CollectionId = false) :
    ∀ fs, runEmit ctx fs L = { fs := fs, writes := [], err := none, net := 0 } := by
  induction L with
  | nil => intro fs; simp [runEmit]
  | cons e rest ih =>
    intro fs
    have hstep := stepColl_of_noId ctx fs e (hL e (List.mem_cons_self e rest))
    have ihr := ih (fun x hx => hL x (List.mem_cons_of_mem e hx))
    rw [runEmit, hstep]
    simp [ihr]

/-- C1 (corrected): a sidecar that is not well-formed raises a ParseError
that is never caught, so the whole run aborts: no artifact is emitted for
any collection, including the well-formed ones. -/
theorem C1_parse_error_aborts (library_dir output_dir : String) (api_key : Option String)
    (overwrite : Bool) (resolverInput : ResolverInput) (sidecars : List SidecarFile)
    (libExists : String → Bool) (relp : String → String) (tmdbResp : Nat → TmdbOutcome)
    (imgResp : Nat → ImagesOutcome) (fs0 : List String)
    (h : (sidecars.any fun s => isMalformed s.content) = true) :
    (process_movie_nfo_files library_dir output_dir api_key overwrite resolverInput sidecars
      libExists relp tmdbResp imgResp fs0).writes = [] ∧
    (process_movie_nfo_files library_dir output_dir api_key overwrite resolverInput sidecars
      libExists relp tmdbResp imgResp fs0).err.isSome = true := by
  unfold process_movie_nfo_files
  cases hk : optTruthy api_key with
  | false =>
    simp only [hk, Bool.false_eq_true, if_false]
    simp [process_grouping_malformed libExists relp [] sidecars h]
  | true =>
    simp only [hk, if_true]
    cases hr : download_and_extract_collection_ids resolverInput with
    | error e => simp
    | ok ids => simp [process_grouping_malformed libExists relp ids sidecars h]

/-- C3 (amended): with no provider key configured the run makes zero
outbound network calls, but contrary to the claim it emits no artifact at
all: every group then has no CollectionId, and a group whose name has no
entry in the identifier mapping is skipped with a warning and produces no
writes. -/
theorem C3_no_key_no_calls (library_dir output_dir : String) (api_key : Option String)
    (overwrite : Bool) (resolverInput : ResolverInput) (sidecars : List SidecarFile)
    (libExists : String → Bool) (relp : String → String) (tmdbResp : Nat → TmdbOutcome)
    (imgResp : Nat → ImagesOutcome) (fs0 : List String)
    (hk : optTruthy api_key = false) :
    ((process_movie_nfo_files library_dir output_dir api_key overwrite resolverInput sidecars
      libExists relp tmdbResp imgResp fs0).net = 0 ∧
    (process_movie_nfo_files library_dir output_dir api_key overwrite resolverInput sidecars
      libExists relp tmdbResp imgResp fs0).writes = []) ∧
    (∀ (ctx : EmitCtx) (fs : List String) (name : String) (movies : List MovieEntry),
      stepColl ctx fs (name, { Movies := movies, CollectionId := none }) =
        { writes := [], err := none, net := 0 }) := by
  constructor
  · unfold process_movie_nfo_files
    simp only [hk, Bool.false_eq_true, if_false]
    cases hg : process_grouping libExists relp [] sidecars [] with
    | error e => simp
    | ok groups =>
      have hnone := grouping_ids_nil_none libExists relp sidecars [] groups
        (by intro e he; simp at he) hg
      have hfalse : ∀ e ∈ groups, natTruthy e.2.CollectionId = false := by
        intro e he
        rw [hnone e he]
        rfl
      simp [runEmit_all_none _ groups hfalse fs0]
  · intro ctx fs name movies
    exact stepColl_of_noId ctx fs (name, { Movies := movies, CollectionId := none }) rfl

theorem grouping_scrub (libExists : String → Bool) (relp : String → String)
    (ids : List (String × Nat)) (sidecars : List SidecarFile) :
    ∀ acc, process_grouping libExists relp ids (sidecars.map scrubGenresStudios) acc =
      process_grouping libExists relp ids sidecars acc := by
  induction sidecars with
  | nil => intro acc; rfl
  | cons s rest ih =>
    intro acc
    cases hs : s.content with
    | malformed =>
      simp [List.map_cons, process_grouping, scrubGenresStudios, parse_movie_nfo, hs]
    | wellFormed d =>
      cases hn : d.set_name with
      | none =>
        simp [List.map_cons, process_grouping, scrubGenresStudios, parse_movie_nfo, hs, hn, ih]
      | some nm =>
        by_cases he : nm = "" <;>
          simp [List.map_cons, process_grouping, scrubGenresStudios, parse_movie_nfo,
            hs, hn, he, ih]

/-- C4 (amended): the emitted genre and studio lists are not a union of the
member sidecars: the run result is completely independent of the genre and
studio elements of every sidecar, because grouping discards them and the
artifact takes its Genres and Studios from the provider response alone. -/
theorem C4_genres_studios_independent (library_dir output_dir : String)
    (api_key : Option String) (overwrite : Bool) (resolverInput : ResolverInput)
    (sidecars : List SidecarFile) (libExists : String → Bool) (relp : String → String)
    (tmdbResp : Nat → TmdbOutcome) (imgResp : Nat → ImagesOutcome) (fs0 : List String) :
    process_movie_nfo_files library_dir output_dir api_key overwrite resolverInput
      (sidecars.map scrubGenresStudios) libExists relp tmdbResp imgResp fs0 =
    process_movie_nfo_files library_dir output_dir api_key overwrite resolverInput
      sidecars libExists relp tmdbResp imgResp fs0 := by
  unfold process_movie_nfo_files
  cases hk : optTruthy api_key with
  | false =>
    simp only [hk, Bool.false_eq_true, if_false]
    simp only [grouping_scrub]
  | true =>
    simp only [hk, if_true]
    cases hr : download_and_extract_collection_ids resolverInput with
    | error e => rfl
    | ok ids => simp only [grouping_scrub]

theorem fetch_truthy_ok (id : Nat) (m : MovieEntry) (key : Option String)
    (resp : TmdbOutcome) (hkey : optTruthy key = true) :
    ∃ td, fetch_collection_data_from_tmdb id m key resp = (.ok td, 1) := by
  cases resp <;> simp [fetch_collection_data_from_tmdb, hkey]

/-- C2 (amended): there is no minimum-membership filter: a collection group
containing exactly one movie is emitted like any other, provided its id was
resolved, the output file does not exist yet, and an api key is set. -/
theorem C2_single_movie_emitted (ctx : EmitCtx) (fs : List String) (name : String)
    (m : MovieEntry) (id : Nat) (p : String)
    (hfs : fsHas fs (pjoin ctx.output_dir (name ++ ".xml")) = false)
    (hz : ¬id = 0) (hkey : optTruthy ctx.api_key = true)
    (hp : m.FullRelativePath = some p) :
    (stepColl ctx fs (name, { Movies := [m], CollectionId := some id })).err = none ∧
    ∃ item, WriteEvent.artifact (pjoin ctx.output_dir (name ++ ".xml")) item ∈
        (stepColl ctx fs (name, { Movies := [m], CollectionId := some id })).writes ∧
      item.CollectionItems = [pjoin ctx.library_dir p] ∧ item.LocalTitle = name := by
  have hz' : (id == 0) = false := by simpa using hz
  have hj : joinPaths ctx.library_dir [m] = .ok [pjoin ctx.library_dir p] := by
    simp [joinPaths, hp, Except.map]
  obtain ⟨td, hf⟩ := fetch_truthy_ok id m ctx.api_key (ctx.tmdbResp id) hkey
  have hcreate : create_collection_xml name
      { Overview := td.Overview, Genres := td.Genres, Studios := td.Studios, Movies := [m] }
      (pjoin ctx.output_dir (name ++ ".xml")) ctx.library_dir (some id) false fs =
      .ok (some { ContentRating := "NR", LockData := "false", Overview := td.Overview
                , LocalTitle := name, DisplayOrder := "PremiereDate", Genres := td.Genres
                , Studios := td.Studios, CollectionItems := [pjoin ctx.library_dir p]
                , CollectionID := some id }) := by
    simp [create_collection_xml, hj, hfs, natTruthy, hz']
  refine ⟨?_, ⟨⟨"NR", "false", td.Overview, name, "PremiereDate", td.Genres, td.Studios,
      [pjoin ctx.library_dir p], some id⟩, ?_, rfl, rfl⟩⟩
  · simp [stepColl, stepEmit, collXmlPath, hfs, hz', hf, hcreate]
  · simp [stepColl, stepEmit, collXmlPath, hfs, hz', hf, hcreate]

theorem joinPaths_none (library_dir : String) (movies : List MovieEntry) (m : MovieEntry)
    (hm : m ∈ movies) (hp : m.FullRelativePath = none) :
    joinPaths library_dir movies = .error .typeError := by
  induction movies with
  | nil => simp at hm
  | cons m0 rest ih =>
    cases hm0 : m0.FullRelativePath with
    | none => simp [joinPaths, hm0]
    | some q =>
      rcases List.mem_cons.mp hm with h | h
      · rw [← h, hp] at hm0
        exact Option.noConfusion hm0
      · simp [joinPaths, hm0, ih h, Except.map]

/-- A movie whose directory contains no matching video file is kept in the
group with a missing path; when the group reaches emission, building the
XML raises a TypeError in the path join, aborting the run with nothing
written for that group. -/
theorem stepColl_missing_video_error (ctx : EmitCtx) (fs : List String) (name : String)
    (cd : CollData) (id : Nat) (m : MovieEntry)
    (hm : m ∈ cd.Movies) (hp : m.FullRelativePath = none)
    (hid : cd.CollectionId = some id) (hz : ¬id = 0)
    (hfs : fsHas fs (pjoin ctx.output_dir (name ++ ".xml")) = false)
    (hkey : optTruthy ctx.api_key = true) :
    (stepColl ctx fs (name, cd)).err = some .typeError ∧
    (stepColl ctx fs (name, cd)).writes = [] := by
  obtain ⟨movies, cid⟩ := cd
  simp only at hid hm
  subst hid
  have hz' : (id == 0) = false := by simpa using hz
  cases movies with
  | nil => simp at hm
  | cons m0 ms =>
    obtain ⟨td, hf⟩ := fetch_truthy_ok id m0 ctx.api_key (ctx.tmdbResp id) hkey
    have hjoin := joinPaths_none ctx.library_dir (m0 :: ms) m hm hp
    have hcreate : create_collection_xml name
        { Overview := td.Overview, Genres := td.Genres, Studios := td.Studios
        , Movies := m0 :: ms }
        (pjoin ctx.output_dir (name ++ ".xml")) ctx.library_dir (some id) false fs =
        .error .typeError := by
      simp [create_collection_xml, hjoin]
    constructor <;> simp [stepColl, stepEmit, collXmlPath, hfs, hz', hf, hcreate]

theorem images_writes_shape (id : Nat) (out : String) (o : ImagesOutcome) :
    ∀ w ∈ (fetch_collection_images id out o).1,
      (∃ url, w = .image (pjoin out "backdrop.jpg") url) ∨
      (∃ url, w = .image (pjoin out "poster.jpg") url) := by
  intro w hw
  cases o with
  | failure => simp [fetch_collection_images] at hw
  | ok backdrops posters bdl pdl =>
    simp only [fetch_collection_images] at hw
    rcases List.mem_append.mp hw with h | h
    · cases hp : pickImage backdrops with
      | none => simp [hp] at h
      | some e0 =>
        cases bdl with
        | false => simp [hp, download_image] at h
        | true =>
          simp [hp, download_image] at h
          exact .inl ⟨_, h⟩
    · cases hp : pickImage posters with
      | none => simp [hp] at h
      | some e0 =>
        cases pdl with
        | false => simp [hp, download_image] at h
        | true =>
          simp [hp, download_image] at h
          exact .inr ⟨_, h⟩

theorem image_writes_only (id : Nat) (out : String) (o : ImagesOutcome)
    (path : String) (item : ItemXml) :
    WriteEvent.artifact path item ∉ (fetch_collection_images id out o).1 := by
  intro hw
  rcases images_writes_shape id out o _ hw with ⟨u, he⟩ | ⟨u, he⟩ <;> exact nomatch he

theorem stepEmit_writes_shape (ctx : EmitCtx) (fs : List String) (name : String)
    (cd : CollData) (id : Nat) :
    ∀ w ∈ (stepEmit ctx fs name cd id).writes,
      (∃ item, w = .artifact (pjoin ctx.output_dir (name ++ ".xml")) item) ∨
      (∃ url, w = .image (pjoin ctx.output_dir "backdrop.jpg") url) ∨
      (∃ url, w = .image (pjoin ctx.output_dir "poster.jpg") url) := by
  intro w hw
  have himg : ∀ w', w' ∈ (if optTruthy ctx.api_key then
      fetch_collection_images id ctx.output_dir (ctx.imgResp id) else ([], 0)).1 →
      (∃ url, w' = WriteEvent.image (pjoin ctx.output_dir "backdrop.jpg") url) ∨
      (∃ url, w' = WriteEvent.image (pjoin ctx.output_dir "poster.jpg") url) := by
    intro w' hw'
    cases hkey : optTruthy ctx.api_key with
    | false => simp [hkey] at hw'
    | true =>
      rw [hkey] at hw'
      simp only [if_true] at hw'
      exact images_writes_shape id ctx.output_dir _ w' hw'
  obtain ⟨movies, cid⟩ := cd
  cases movies with
  | nil => simp [stepEmit] at hw
  | cons m0 ms =>
    cases hf : fetch_collection_data_from_tmdb id m0 ctx.api_key (ctx.tmdbResp id) with
    | mk fres n =>
      cases fres with
      | error er => simp [stepEmit, hf] at hw
      | ok td =>
        cases hc : create_collection_xml name
            { Overview := td.Overview, Genres := td.Genres, Studios := td.Studios
            , Movies := m0 :: ms }
            (collXmlPath ctx.output_dir name) ctx.library_dir cid false fs with
        | error er => simp [stepEmit, hf, hc] at hw
        | ok res =>
          cases res with
          | none =>
            simp only [stepEmit, hf, hc] at hw
            exact .inr (himg w hw)
          | some item =>
            simp only [stepEmit, hf, hc] at hw
            rcases List.mem_cons.mp hw with h | h
            · exact .inl ⟨item, h⟩
            · exact .inr (himg w h)

theorem stepColl_writes_shape (ctx : EmitCtx) (fs : List String) (e : String × CollData) :
    ∀ w ∈ (stepColl ctx fs e).writes,
      (∃ item, w = .artifact (pjoin ctx.output_dir (e.1 ++ ".xml")) item) ∨
      (∃ url, w = .image (pjoin ctx.output_dir "backdrop.jpg") url) ∨
      (∃ url, w = .image (pjoin ctx.output_dir "poster.jpg") url) := by
  intro w hw
  obtain ⟨name, cd⟩ := e
  by_cases hx : (fsHas fs (collXmlPath ctx.output_dir name) && !ctx.overwrite) = true
  · simp [stepColl, hx] at hw
  · cases hid : cd.CollectionId with
    | none => simp [stepColl, hx, hid] at hw
    | some id =>
      by_cases hz : (id == 0) = true
      · simp [stepColl, hx, hid, hz] at hw
      · simp only [stepColl, hx, hid, hz, Bool.false_eq_true, if_false] at hw
        exact stepEmit_writes_shape ctx fs name cd id w hw

theorem runEmit_writes_shape (ctx : EmitCtx) (L : List (String × CollData)) :
    ∀ fs, ∀ w ∈ (runEmit ctx fs L).writes,
      (∃ name item, w = .artifact (pjoin ctx.output_dir (name ++ ".xml")) item) ∨
      (∃ url, w = .image (pjoin ctx.output_dir "backdrop.jpg") url) ∨
      (∃ url, w = .image (pjoin ctx.output_dir "poster.jpg") url) := by
  induction L with
  | nil => intro fs w hw; simp [runEmit] at hw
  | cons e rest ih =>
    intro fs w hw
    rw [runEmit] at hw
    cases herr : (stepColl ctx fs e).err with
    | some er =>
      simp only [herr] at hw
      rcases stepColl_writes_shape ctx fs e w hw with ⟨item, h⟩ | h
      · exact .inl ⟨e.1, item, h⟩
      · exact .inr h
    | none =>
      simp only [herr] at hw
      rcases List.mem_append.mp hw with h | h
      · rcases stepColl_writes_shape ctx fs e w h with ⟨item, h1⟩ | h1
        · exact .inl ⟨e.1, item, h1⟩
        · exact .inr h1
      · exact ih _ w h

/-- C8 (amended): artifacts are written directly under the output root as
name.xml, with no per-collection subdirectory, and all artwork is written
to the shared paths backdrop.jpg and poster.jpg directly under the output
root, so different collections write their artwork to the same path. -/
theorem C8_output_layout (library_dir output_dir : String) (api_key : Option String)
    (overwrite : Bool) (resolverInput : ResolverInput) (sidecars : List SidecarFile)
    (libExists : String → Bool) (relp : String → String) (tmdbResp : Nat → TmdbOutcome)
    (imgResp : Nat → ImagesOutcome) (fs0 : List String) :
    ∀ w ∈ (process_movie_nfo_files library_dir output_dir api_key overwrite resolverInput
      sidecars libExists relp tmdbResp imgResp fs0).writes,
      (∃ name item, w = .artifact (pjoin output_dir (name ++ ".xml")) item) ∨
      (∃ url, w = .image (pjoin output_dir "backdrop.jpg") url) ∨
      (∃ url, w = .image (pjoin output_dir "poster.jpg") url) := by
  intro w hw
  unfold process_movie_nfo_files at hw
  cases hk : optTruthy api_key with
  | false =>
    simp only [hk, Bool.false_eq_true, if_false] at hw
    cases hg : process_grouping libExists relp [] sidecars [] with
    | error e => simp [hg] at hw
    | ok groups =>
      simp only [hg] at hw
      exact runEmit_writes_shape _ groups fs0 w hw
  | true =>
    simp only [hk, if_true] at hw
    cases hr : download_and_extract_collection_ids resolverInput with
    | error e => simp [hr] at hw
    | ok ids =>
      simp only [hr] at hw
      cases hg : process_grouping libExists relp ids sidecars [] with
      | error e => simp [hg] at hw
      | ok groups =>
        simp only [hg] at hw
        exact runEmit_writes_shape _ groups fs0 w hw

theorem fetch_ok_inv (id : Nat) (m : MovieEntry) (key : Option String) (resp : TmdbOutcome)
    (td : TmdbData) (n : Nat)
    (h : fetch_collection_data_from_tmdb id m key resp = (.ok td, n)) :
    optTruthy key = true ∧ n = 1 := by
  cases hkey : optTruthy key with
  | false => simp [fetch_collection_data_from_tmdb, hkey] at h
  | true =>
    refine ⟨rfl, ?_⟩
    cases resp <;> simp [fetch_collection_data_from_tmdb, hkey] at h <;> omega

theorem create_ok_some_inv (collection_name : String) (cd : CollectionPayload)
    (output_file library_dir : String) (cid : Option Nat) (ow : Bool) (fs : List String)
    (item : ItemXml)
    (h : create_collection_xml collection_name cd output_file library_dir cid ow fs =
      .ok (some item)) :
    item.Overview = cd.Overview ∧ item.Genres = cd.Genres ∧ item.Studios = cd.Studios ∧
    item.CollectionID = (if natTruthy cid then cid else none) ∧
    item.LocalTitle = collection_name := by
  unfold create_collection_xml at h
  cases hj : joinPaths library_dir cd.Movies with
  | error e => rw [hj] at h; simp at h
  | ok paths =>
    rw [hj] at h
    dsimp only at h
    by_cases hex : (fsHas fs output_file && !ow) = true
    · rw [if_pos hex] at h
      simp at h
    · rw [if_neg hex] at h
      simp only [Except.ok.injEq, Option.some.injEq] at h
      rw [← h]
      exact ⟨rfl, rfl, rfl, rfl, rfl⟩

theorem stepColl_artifact_inv (ctx : EmitCtx) (fs : List String) (e : String × CollData)
    (path : String) (item : ItemXml)
    (hw : WriteEvent.artifact path item ∈ (stepColl ctx fs e).writes) :
    ∃ id m, ¬id = 0 ∧
      fetch_collection_data_from_tmdb id m ctx.api_key (ctx.tmdbResp id) =
        (.ok ⟨item.Overview, item.Genres, item.Studios⟩, 1) ∧
      item.CollectionID = some id := by
  obtain ⟨name, cd⟩ := e
  by_cases hx : (fsHas fs (collXmlPath ctx.output_dir name) && !ctx.overwrite) = true
  · simp [stepColl, hx] at hw
  · obtain ⟨movies, cid⟩ := cd
    cases hid : cid with
    | none => simp [stepColl, hx, hid] at hw
    | some id =>
      subst hid
      by_cases hz : (id == 0) = true
      · simp [stepColl, hx, hz] at hw
      · simp only [stepColl, hx, hz, Bool.false_eq_true, if_false] at hw
        cases movies with
        | nil => simp [stepEmit] at hw
        | cons m0 ms =>
          cases hf : fetch_collection_data_from_tmdb id m0 ctx.api_key (ctx.tmdbResp id) with
          | mk fres n =>
            cases fres with
            | error er => simp [stepEmit, hf] at hw
            | ok td =>
              cases hc : create_collection_xml name
                  { Overview := td.Overview, Genres := td.Genres, Studios := td.Studios
                  , Movies := m0 :: ms }
                  (collXmlPath ctx.output_dir name) ctx.library_dir (some id) false fs with
              | error er => simp [stepEmit, hf, hc] at hw
              | ok res =>
                cases res with
                | none =>
                  simp only [stepEmit, hf, hc] at hw
                  exfalso
                  cases hkey : optTruthy ctx.api_key with
                  | false => rw [hkey] at hw; simp at hw
                  | true =>
                    rw [hkey] at hw
                    simp only [if_true] at hw
                    exact image_writes_only id ctx.output_dir _ path item hw
                | some item0 =>
                  simp only [stepEmit, hf, hc] at hw
                  rcases List.mem_cons.mp hw with h | h
                  · have hz0 : ¬id = 0 := by simpa using hz
                    have hitem : item = item0 := by
                      injection h with h1 h2
                    obtain ⟨hO, hG, hS, hC, hL⟩ :=
                      create_ok_some_inv name _ _ _ _ _ _ item0 hc
                    obtain ⟨hkey, hn⟩ := fetch_ok_inv id m0 ctx.api_key (ctx.tmdbResp id) td n hf
                    refine ⟨id, m0, hz0, ?_, ?_⟩
                    · rw [hitem, hO, hG, hS]
                      rw [← hn]
                      exact hf
                    · rw [hitem, hC]
                      simp [natTruthy, hz]
                  · exfalso
                    cases hkey : optTruthy ctx.api_key with
                    | false => rw [hkey] at h; simp at h
                    | true =>
                      rw [hkey] at h
                      simp only [if_true] at h
                      exact image_writes_only id ctx.output_dir _ path item h

theorem runEmit_artifact_inv (ctx : EmitCtx) (L : List (String × CollData)) :
    ∀ fs path item, WriteEvent.artifact path item ∈ (runEmit ctx fs L).writes →
      ∃ id m, ¬id = 0 ∧
        fetch_collection_data_from_tmdb id m ctx.api_key (ctx.tmdbResp id) =
          (.ok ⟨item.Overview, item.Genres, item.Studios⟩, 1) ∧
        item.CollectionID = some id := by
  induction L with
  | nil => intro fs path item hw; simp [runEmit] at hw
  | cons e rest ih =>
    intro fs path item hw
    rw [runEmit] at hw
    cases herr : (stepColl ctx fs e).err with
    | some er =>
      simp only [herr] at hw
      exact stepColl_artifact_inv ctx fs e path item hw
    | none =>
      simp only [herr] at hw
      rcases List.mem_append.mp hw with h | h
      · exact stepColl_artifact_inv ctx fs e path item h
      · exact ih _ path item h

/-- C10 (confirmed): every artifact emitted by a run carries an Overview,
Genres and Studios triple that is exactly the result of the TMDb fetch for
some resolved nonzero collection id (which is also recorded in the
artifact), so sidecar-derived overview, genres and studios never appear in
an artifact emitted with a resolved identifier: the fetch result depends
only on the provider response, or is the failure default. -/
theorem C10_provider_only (library_dir output_dir : String) (api_key : Option String)
    (overwrite : Bool) (resolverInput : ResolverInput) (sidecars : List SidecarFile)
    (libExists : String → Bool) (relp : String → String) (tmdbResp : Nat → TmdbOutcome)
    (imgResp : Nat → ImagesOutcome) (fs0 : List String) (path : String) (item : ItemXml)
    (hw : WriteEvent.artifact path item ∈ (process_movie_nfo_files library_dir output_dir
      api_key overwrite resolverInput sidecars libExists relp tmdbResp imgResp fs0).writes) :
    ∃ id m, ¬id = 0 ∧
      fetch_collection_data_from_tmdb id m api_key (tmdbResp id) =
        (.ok ⟨item.Overview, item.Genres, item.Studios⟩, 1) ∧
      item.CollectionID = some id := by
  unfold process_movie_nfo_files at hw
  cases hk : optTruthy api_key with
  | false =>
    simp only [hk, Bool.false_eq_true, if_false] at hw
    cases hg : process_grouping libExists relp [] sidecars [] with
    | error e => simp [hg] at hw
    | ok groups =>
      simp only [hg] at hw
      exact runEmit_artifact_inv _ groups fs0 path item hw
  | true =>
    simp only [hk, if_true] at hw
    cases hr : download_and_extract_collection_ids resolverInput with
    | error e => simp [hr] at hw
    | ok ids =>
      simp only [hr] at hw
      cases hg : process_grouping libExists relp ids sidecars [] with
      | error e => simp [hg] at hw
      | ok groups =>
        simp only [hg] at hw
        exact runEmit_artifact_inv _ groups fs0 path item hw

/-- C1 (corrected): with a malformed sidecar in the walk, the run aborts
with a ParseError and writes nothing at all, even though the identical run
without the malformed sidecar emits the artifact of the Pair collection. -/
theorem C1_counterexample :
    (process_movie_nfo_files "lib" "out" (some "k") false
      (.ok (.lines [.entry (some "Pair") (some 7)]))
      [⟨"lib/X", "X", .malformed⟩,
       ⟨"lib/P1", "P1", .wellFormed ⟨some "Movie One", none, some "Pair", none, none, none, [], []⟩⟩,
       ⟨"lib/P2", "P2", .wellFormed ⟨some "Movie Two", none, some "Pair", none, none, none, [], []⟩⟩]
      (fun p => p == "lib/P1/P1.mp4" || p == "lib/P2/P2.mp4") (fun p => ⟨p.data.drop 4⟩)
      (fun _ => .reqError) (fun _ => .failure) []).writes = [] ∧
    (process_movie_nfo_files "lib" "out" (some "k") false
      (.ok (.lines [.entry (some "Pair") (some 7)]))
      [⟨"lib/X", "X", .malformed⟩,
       ⟨"lib/P1", "P1", .wellFormed ⟨some "Movie One", none, some "Pair", none, none, none, [], []⟩⟩,
       ⟨"lib/P2", "P2", .wellFormed ⟨some "Movie Two", none, some "Pair", none, none, none, [], []⟩⟩]
      (fun p => p == "lib/P1/P1.mp4" || p == "lib/P2/P2.mp4") (fun p => ⟨p.data.drop 4⟩)
      (fun _ => .reqError) (fun _ => .failure) []).err = some .parseError ∧
    (process_movie_nfo_files "lib" "out" (some "k") false
      (.ok (.lines [.entry (some "Pair") (some 7)]))
      [⟨"lib/P1", "P1", .wellFormed ⟨some "Movie One", none, some "Pair", none, none, none, [], []⟩⟩,
       ⟨"lib/P2", "P2", .wellFormed ⟨some "Movie Two", none, some "Pair", none, none, none, [], []⟩⟩]
      (fun p => p == "lib/P1/P1.mp4" || p == "lib/P2/P2.mp4") (fun p => ⟨p.data.drop 4⟩)
      (fun _ => .reqError) (fun _ => .failure) []).writes =
      [.artifact "out/Pair.xml" ⟨"NR", "false", "No overview available.", "Pair",
        "PremiereDate", [], [], ["lib/P1/P1.mp4", "lib/P2/P2.mp4"], some 7⟩] := by
  exact ⟨rfl, rfl, rfl⟩

/-- C1 witness: the amended statement applied to a one-file library whose
only sidecar is malformed. -/
theorem C1_witness :
    (process_movie_nfo_files "lib" "out" none false .netError
      [⟨"lib/X", "X", .malformed⟩] (fun _ => false) (fun p => p) (fun _ => .reqError)
      (fun _ => .failure) []).writes = [] ∧
    (process_movie_nfo_files "lib" "out" none false .netError
      [⟨"lib/X", "X", .malformed⟩] (fun _ => false) (fun p => p) (fun _ => .reqError)
      (fun _ => .failure) []).err.isSome = true :=
  C1_parse_error_aborts "lib" "out" none false .netError _ _ _ _ _ [] rfl

/-- C2 (corrected): a collection contributed by exactly one sidecar is
emitted: the run writes the Solo artifact although the grouping pass shows
its member list has length one. -/
theorem C2_counterexample :
    (process_movie_nfo_files "lib" "out" (some "k") false
      (.ok (.lines [.entry (some "Solo") (some 5)]))
      [⟨"lib/Solo", "Solo", .wellFormed ⟨some "Solo Film", none, some "Solo", none, none, none, ["Action"], []⟩⟩]
      (fun p => p == "lib/Solo/Solo.mp4") (fun p => ⟨p.data.drop 4⟩)
      (fun _ => .reqError) (fun _ => .failure) []).writes =
      [.artifact "out/Solo.xml" ⟨"NR", "false", "No overview available.", "Solo",
        "PremiereDate", [], [], ["lib/Solo/Solo.mp4"], some 5⟩] ∧
    process_grouping (fun p => p == "lib/Solo/Solo.mp4") (fun p => ⟨p.data.drop 4⟩) [("Solo", 5)]
      [⟨"lib/Solo", "Solo", .wellFormed ⟨some "Solo Film", none, some "Solo", none, none, none, ["Action"], []⟩⟩]
      [] =
      .ok [("Solo", ⟨[⟨"Solo Film", "Unknown", some "Solo/Solo.mp4"⟩], some 5⟩)] := by
  exact ⟨rfl, rfl⟩

/-- C2 witness: the amended statement applied to a concrete single-movie
group with a resolved id and an empty output directory. -/
theorem C2_witness :
    (stepColl ⟨"lib", "out", some "k", false, fun _ => .reqError, fun _ => .failure⟩ []
      ("Solo", { Movies := [⟨"Solo Film", "Unknown", some "Solo/Solo.mp4"⟩]
               , CollectionId := some 5 })).err = none ∧
    ∃ item, WriteEvent.artifact (pjoin "out" ("Solo" ++ ".xml")) item ∈
        (stepColl ⟨"lib", "out", some "k", false, fun _ => .reqError, fun _ => .failure⟩ []
          ("Solo", { Movies := [⟨"Solo Film", "Unknown", some "Solo/Solo.mp4"⟩]
                   , CollectionId := some 5 })).writes ∧
      item.CollectionItems = [pjoin "lib" "Solo/Solo.mp4"] ∧ item.LocalTitle = "Solo" :=
  C2_single_movie_emitted _ _ "Solo" _ 5 "Solo/Solo.mp4" rfl (by decide) (by decide) rfl

/-- C3 (corrected): with no provider key, the run makes zero network calls,
but the two-movie Pair group is not emitted at all: its artifact is skipped
because no collection id was resolved, instead of being written with the
locally merged data. -/
theorem C3_counterexample :
    (process_movie_nfo_files "lib" "out" none false .netError
      [⟨"lib/P1", "P1", .wellFormed ⟨some "Movie One", none, some "Pair", none, none, none, [], []⟩⟩,
       ⟨"lib/P2", "P2", .wellFormed ⟨some "Movie Two", none, some "Pair", none, none, none, [], []⟩⟩]
      (fun p => p == "lib/P1/P1.mp4" || p == "lib/P2/P2.mp4") (fun p => ⟨p.data.drop 4⟩)
      (fun _ => .reqError) (fun _ => .failure) []).writes = [] ∧
    (process_movie_nfo_files "lib" "out" none false .netError
      [⟨"lib/P1", "P1", .wellFormed ⟨some "Movie One", none, some "Pair", none, none, none, [], []⟩⟩,
       ⟨"lib/P2", "P2", .wellFormed ⟨some "Movie Two", none, some "Pair", none, none, none, [], []⟩⟩]
      (fun p => p == "lib/P1/P1.mp4" || p == "lib/P2/P2.mp4") (fun p => ⟨p.data.drop 4⟩)
      (fun _ => .reqError) (fun _ => .failure) []).net = 0 ∧
    process_grouping (fun p => p == "lib/P1/P1.mp4" || p == "lib/P2/P2.mp4")
      (fun p => ⟨p.data.drop 4⟩) []
      [⟨"lib/P1", "P1", .wellFormed ⟨some "Movie One", none, some "Pair", none, none, none, [], []⟩⟩,
       ⟨"lib/P2", "P2", .wellFormed ⟨some "Movie Two", none, some "Pair", none, none, none, [], []⟩⟩]
      [] =
      .ok [("Pair", ⟨[⟨"Movie One", "Unknown", some "P1/P1.mp4"⟩,
                      ⟨"Movie Two", "Unknown", some "P2/P2.mp4"⟩], none⟩)] := by
  exact ⟨rfl, rfl, rfl⟩

/-- C3 witness: the amended statement applied to a concrete run without a
provider key. -/
theorem C3_witness :
    (process_movie_nfo_files "lib" "out" none false .netError
      [⟨"lib/P1", "P1", .wellFormed ⟨some "Movie One", none, some "Pair", none, none, none, [], []⟩⟩]
      (fun _ => false) (fun p => p) (fun _ => .reqError) (fun _ => .failure) []).net = 0 ∧
    (process_movie_nfo_files "lib" "out" none false .netError
      [⟨"lib/P1", "P1", .wellFormed ⟨some "Movie One", none, some "Pair", none, none, none, [], []⟩⟩]
      (fun _ => false) (fun p => p) (fun _ => .reqError) (fun _ => .failure) []).writes = [] :=
  (C3_no_key_no_calls "lib" "out" none false .netError _ _ _ _ _ [] rfl).1

/-- C4 (corrected): both member sidecars carry genre Action and studio S,
yet the emitted artifact carries exactly the provider data Drama and
RemoteStudio: the emitted lists are not the union of the member lists. -/
theorem C4_counterexample :
    (process_movie_nfo_files "lib" "out" (some "k") false
      (.ok (.lines [.entry (some "Pair") (some 7)]))
      [⟨"lib/P1", "P1", .wellFormed ⟨some "Movie One", none, some "Pair", none, none, none, ["Action"], ["S"]⟩⟩,
       ⟨"lib/P2", "P2", .wellFormed ⟨some "Movie Two", none, some "Pair", none, none, none, ["Action"], ["S"]⟩⟩]
      (fun p => p == "lib/P1/P1.mp4" || p == "lib/P2/P2.mp4") (fun p => ⟨p.data.drop 4⟩)
      (fun _ => .ok (some "Remote overview") ["Drama"] ["RemoteStudio"]) (fun _ => .failure)
      []).writes =
      [.artifact "out/Pair.xml" ⟨"NR", "false", "Remote overview", "Pair", "PremiereDate",
        ["Drama"], ["RemoteStudio"], ["lib/P1/P1.mp4", "lib/P2/P2.mp4"], some 7⟩] ∧
    (["Drama"] : List String) ≠ ["Action"] := by
  exact ⟨rfl, by decide⟩

/-- C5 (code bug): evaluating the run at the failing input: the Duo group
keeps its second movie with a missing path after its video was not found,
and emission aborts the run with a TypeError instead of excluding that
movie and writing the artifact. -/
theorem C5_type_error_at_failing_input :
    (process_movie_nfo_files "lib" "out" (some "k") false
      (.ok (.lines [.entry (some "Duo") (some 3)]))
      [⟨"lib/D1", "D1", .wellFormed ⟨some "Duo One", none, some "Duo", none, none, none, [], []⟩⟩,
       ⟨"lib/D2", "D2", .wellFormed ⟨some "Duo Two", none, some "Duo", none, none, none, [], []⟩⟩]
      (fun p => p == "lib/D1/D1.mp4") (fun p => ⟨p.data.drop 4⟩)
      (fun _ => .reqError) (fun _ => .failure) []).err = some .typeError ∧
    (process_movie_nfo_files "lib" "out" (some "k") false
      (.ok (.lines [.entry (some "Duo") (some 3)]))
      [⟨"lib/D1", "D1", .wellFormed ⟨some "Duo One", none, some "Duo", none, none, none, [], []⟩⟩,
       ⟨"lib/D2", "D2", .wellFormed ⟨some "Duo Two", none, some "Duo", none, none, none, [], []⟩⟩]
      (fun p => p == "lib/D1/D1.mp4") (fun p => ⟨p.data.drop 4⟩)
      (fun _ => .reqError) (fun _ => .failure) []).writes = [] ∧
    process_grouping (fun p => p == "lib/D1/D1.mp4") (fun p => ⟨p.data.drop 4⟩) [("Duo", 3)]
      [⟨"lib/D1", "D1", .wellFormed ⟨some "Duo One", none, some "Duo", none, none, none, [], []⟩⟩,
       ⟨"lib/D2", "D2", .wellFormed ⟨some "Duo Two", none, some "Duo", none, none, none, [], []⟩⟩]
      [] =
      .ok [("Duo", ⟨[⟨"Duo One", "Unknown", some "D1/D1.mp4"⟩,
                     ⟨"Duo Two", "Unknown", none⟩], some 3⟩)] := by
  exact ⟨rfl, rfl, rfl⟩

/-- C8 (corrected): two different collections both write their backdrop to
the same shared path directly under the output root. -/
theorem C8_counterexample :
    ((process_movie_nfo_files "lib" "out" (some "k") false
      (.ok (.lines [.entry (some "A") (some 1), .entry (some "B") (some 2)]))
      [⟨"lib/A1", "A1", .wellFormed ⟨some "A Movie", none, some "A", none, none, none, [], []⟩⟩,
       ⟨"lib/B1", "B1", .wellFormed ⟨some "B Movie", none, some "B", none, none, none, [], []⟩⟩]
      (fun p => p == "lib/A1/A1.mp4" || p == "lib/B1/B1.mp4") (fun p => ⟨p.data.drop 4⟩)
      (fun _ => .reqError) (fun _ => .ok [⟨some "en", "/b.jpg"⟩] [] true false)
      []).writes.map writePath).count "out/backdrop.jpg" = 2 := by
  rfl

/-- C8 witness: the amended layout statement applied to the backdrop image
write of a concrete run. -/
theorem C8_witness :
    (∃ name item, (WriteEvent.image "out/backdrop.jpg"
        "https://image.tmdb.org/t/p/original/b.jpg") =
      .artifact (pjoin "out" (name ++ ".xml")) item) ∨
    (∃ url, (WriteEvent.image "out/backdrop.jpg"
        "https://image.tmdb.org/t/p/original/b.jpg") =
      .image (pjoin "out" "backdrop.jpg") url) ∨
    (∃ url, (WriteEvent.image "out/backdrop.jpg"
        "https://image.tmdb.org/t/p/original/b.jpg") =
      .image (pjoin "out" "poster.jpg") url) :=
  C8_output_layout "lib" "out" (some "k") false
    (.ok (.lines [.entry (some "A") (some 1), .entry (some "B") (some 2)]))
    [⟨"lib/A1", "A1", .wellFormed ⟨some "A Movie", none, some "A", none, none, none, [], []⟩⟩,
     ⟨"lib/B1", "B1", .wellFormed ⟨some "B Movie", none, some "B", none, none, none, [], []⟩⟩]
    (fun p => p == "lib/A1/A1.mp4" || p == "lib/B1/B1.mp4") (fun p => ⟨p.data.drop 4⟩)
    (fun _ => .reqError) (fun _ => .ok [⟨some "en", "/b.jpg"⟩] [] true false) []
    (.image "out/backdrop.jpg" "https://image.tmdb.org/t/p/original/b.jpg") (by decide)

/-- C10 witness: the provenance statement applied to the artifact of a
concrete run whose provider request failed, yielding the failure
defaults. -/
theorem C10_witness :
    ∃ id m, ¬id = 0 ∧
      fetch_collection_data_from_tmdb id m (some "k") ((fun _ => TmdbOutcome.reqError) id) =
        (.ok ⟨"No overview available.", [], []⟩, 1) ∧
      (⟨"NR", "false", "No overview available.", "Solo", "PremiereDate", [], [],
        ["lib/Solo/Solo.mp4"], some 5⟩ : ItemXml).CollectionID = some id :=
  C10_provider_only "lib" "out" (some "k") false (.ok (.lines [.entry (some "Solo") (some 5)]))
    [⟨"lib/Solo", "Solo", .wellFormed ⟨some "Solo Film", none, some "Solo", none, none, none, ["Action"], []⟩⟩]
    (fun p => p == "lib/Solo/Solo.mp4") (fun p => ⟨p.data.drop 4⟩) (fun _ => .reqError)
    (fun _ => .failure) [] "out/Solo.xml"
    ⟨"NR", "false", "No overview available.", "Solo", "PremiereDate", [], [],
      ["lib/Solo/Solo.mp4"], some 5⟩ (by decide)
